import Mathlib

/-!
Verification of the resilient orchestration engine of `start_services.py`
(with the resource-limit calculator of `O6HOBA.py`).

The Python code is shallowly embedded:

* strings are Lean `String`s and all character-level scanning is done on
  `String.data` (`List Char`), since `in`-substring tests and `re` matching
  are character-list operations;
* `subprocess` results are a record of exit status and captured output, and
  the sequence of results an external command would produce over repeated
  attempts is an oracle function `Nat → ProcResult`;
* the two remediation actions (`fix_container_conflict`, `fix_ipv6_issue`)
  mutate the host, so their success/failure per attempt is likewise an
  oracle `Nat → Bool`;
* Python `int(x * w)` on a nonnegative value is floor division; the decimal
  weight constants (0.3, 0.18, ...) all round *down* when stored as binary
  doubles, so the exact rational floors used here are an upper bound of the
  Python float results and coincide with them at every concrete input used
  in a witness or counterexample below (checked by hand against CPython);
* exceptions (`DiskSpaceError`, `CalledProcessError`) become constructors of
  an explicit outcome type.
-/

/-- Decidable substring test on character lists: `pat` occurs inside `s`.
Mirrors Python's `pat in s` for strings. -/
def listHas (s pat : List Char) : Bool := decide (pat <:+: s)

/-- Substring test on strings, Python `pat in s`. -/
def strHas (s pat : String) : Bool := listHas s.data pat.data

/-- ASCII lower-casing of a string's characters, Python `s.lower()`
(the outputs classified here are ASCII docker/compose messages). -/
def lowerData (s : String) : List Char := s.data.map Char.toLower

/-- From `start_services.py`, `is_disk_space_error`: the combined output
contains the case-insensitive phrase "no space left on device"
(empty output returns `False` immediately). -/
def is_disk_space_error (output : String) : Bool :=
  if output.data = [] then false
  else listHas (lowerData output) "no space left on device".data

/-! ## Container-name-conflict signature

`is_container_name_conflict` runs
`re.findall(r'The container name ["\']?/([^"\']+)["\']? is already in use', output)`
and returns `(True, list(set(matches)))` when there is at least one match.
The regex is embedded as a hand-rolled matcher with Python's backtracking
semantics: at each start position the literal prefix is matched, an optional
quote is consumed (forced, since a quote can never match the following `/`),
and the greedy capture `[^"\']+` is resolved by trying the longest
quote-free run first and backing off one character at a time until the
optional closing quote plus the literal tail fits. -/

/-- The literal head of the conflict signature. -/
def litConflictHead : List Char := "The container name ".data

/-- The literal tail of the conflict signature. -/
def litConflictTail : List Char := " is already in use".data

/-- The regex character class `["\']`: a double or single quote. -/
def isQuote (c : Char) : Bool := c = '"' || c = Char.ofNat 39

/-- Try to close a conflict match at a capture split point: an optional
quote (forced when present, as the tail starts with a space) followed by the
literal tail. Returns the rest of the input after the match. -/
def conflictClose (rest : List Char) : Option (List Char) :=
  match rest with
  | [] => none
  | c :: r =>
    if isQuote c then
      if litConflictTail.isPrefixOf r then some (r.drop litConflictTail.length) else none
    else
      if litConflictTail.isPrefixOf rest then some (rest.drop litConflictTail.length) else none

/-- Backtracking for the greedy capture `[^"\']+`: `nameRev` is the current
(reversed) candidate for the captured name; on failure the last character is
given back to the rest. The capture must stay nonempty. -/
def conflictCapture (nameRev rest : List Char) : Option (List Char × List Char) :=
  match nameRev with
  | [] => none
  | c :: nr =>
    match conflictClose rest with
    | some after => some (nameRev.reverse, after)
    | none => conflictCapture nr (c :: rest)

/-- Match the conflict signature at the start of `s`; on success return the
captured container name and the input remaining after the match. -/
def conflictMatchAt (s : List Char) : Option (List Char × List Char) :=
  if litConflictHead.isPrefixOf s then
    let s₁ := s.drop litConflictHead.length
    let s₂ := match s₁ with
      | c :: r => if isQuote c then r else s₁
      | [] => s₁
    match s₂ with
    | '/' :: r =>
      let run := r.takeWhile (fun c => !isQuote c)
      conflictCapture run.reverse (r.drop run.length)
    | _ => none
  else none

/-- `re.findall` over the input: scan left to right, continue after each
(nonempty, hence shortening) match; `fuel` bounds the scan by the input
length. -/
def conflictFindAux : Nat → List Char → List (List Char)
  | 0, _ => []
  | _ + 1, [] => []
  | fuel + 1, s@(_ :: rest) =>
    match conflictMatchAt s with
    | some (name, after) => name :: conflictFindAux fuel after
    | none => conflictFindAux fuel rest

/-- All captured container names of the conflict signature, in match order,
duplicates included — the result of Python's `re.findall`. -/
def conflictNames (output : String) : List String :=
  (conflictFindAux output.data.length output.data).map fun l => String.mk l

/-- From `start_services.py`, `is_container_name_conflict`: returns
`(True, list(set(matches)))` when the signature occurs, `(False, [])`
otherwise (also for empty output). `list(set(·))` deduplicates with
unspecified order; it is modelled by `List.dedup`, and every statement
below about the name list is order-insensitive. -/
def is_container_name_conflict (output : String) : Bool × List String :=
  match conflictNames output with
  | [] => (false, [])
  | ms => (true, ms.dedup)

/-! ## IPv6 unreachable-network signature

`is_ipv6_network_error` lower-cases the output, requires the phrase
"network is unreachable", and then runs
`re.search(r'\[?[0-9a-fA-F]{1,4}(:[0-9a-fA-F]{0,4}){2,7}\]?:\d+', stderr)`
on the *original* output. Only the existence of a match matters, so the
embedding decides whether any parse of the pattern starts at any position. -/

/-- The regex class `[0-9a-fA-F]`. -/
def isHexDigit (c : Char) : Bool := "0123456789abcdefABCDEF".data.contains c

/-- The regex class `\d` (ASCII digits; the classified outputs are ASCII). -/
def isAsciiDigit (c : Char) : Bool := "0123456789".data.contains c

/-- Length of the leading run of hex digits. -/
def hexLen : List Char → Nat
  | c :: r => if isHexDigit c then hexLen r + 1 else 0
  | [] => 0

/-- The pattern tail `\]?:\d+`: an optional closing bracket (forced when
present, since `]` cannot match the following `:`), a colon, and at least
one digit. -/
def ipv6Tail (s : List Char) : Bool :=
  let s' := match s with
    | ']' :: r => r
    | _ => s
  match s' with
  | ':' :: d :: _ => isAsciiDigit d
  | _ => false

/-- The repeated group `(:[0-9a-fA-F]{0,4}){2,7}` followed by the tail:
`done` groups have been consumed, at most `rem` more are allowed; the tail
may start once at least two groups were consumed. Each group consumes a
colon and zero to four hex digits (all counts are tried). -/
def ipv6Groups : Nat → Nat → List Char → Bool
  | 0, done, s => decide (2 ≤ done) && ipv6Tail s
  | rem + 1, done, s =>
    (decide (2 ≤ done) && ipv6Tail s) ||
    match s with
    | ':' :: r =>
      let h := min 4 (hexLen r)
      ipv6Groups rem (done + 1) r ||
      (decide (1 ≤ h) && ipv6Groups rem (done + 1) (r.drop 1)) ||
      (decide (2 ≤ h) && ipv6Groups rem (done + 1) (r.drop 2)) ||
      (decide (3 ≤ h) && ipv6Groups rem (done + 1) (r.drop 3)) ||
      (decide (4 ≤ h) && ipv6Groups rem (done + 1) (r.drop 4))
    | _ => false

/-- Match the IPv6 pattern at the start of `s`: optional `[` (forced when
present, as `[` is not a hex digit), one to four hex digits, then the
groups and the tail. -/
def matchIPv6At (s : List Char) : Bool :=
  let s₁ := match s with
    | '[' :: r => r
    | _ => s
  let h := min 4 (hexLen s₁)
  (decide (1 ≤ h) && ipv6Groups 7 0 (s₁.drop 1)) ||
  (decide (2 ≤ h) && ipv6Groups 7 0 (s₁.drop 2)) ||
  (decide (3 ≤ h) && ipv6Groups 7 0 (s₁.drop 3)) ||
  (decide (4 ≤ h) && ipv6Groups 7 0 (s₁.drop 4))

/-- `re.search`: does the IPv6 pattern match at some position? -/
def searchIPv6 : List Char → Bool
  | [] => false
  | s@(_ :: r) => matchIPv6At s || searchIPv6 r

/-- From `start_services.py`, `is_ipv6_network_error`: empty output is no
error; otherwise the lower-cased output must contain
"network is unreachable" and the original output must contain an
IPv6-literal-with-port shaped fragment. -/
def is_ipv6_network_error (stderr : String) : Bool :=
  if stderr.data = [] then false
  else if listHas (lowerData stderr) "network is unreachable".data then
    searchIPv6 stderr.data
  else false

/-! ## Classification

`run_docker_compose_with_retry` applies the three predicates in a fixed
order on each failure: disk exhaustion first, then container-name conflict,
then the IPv6 network error, with `Unknown` as the default. The spec's
`ErrorKind` and `classify` name exactly this priority order. -/

/-- The spec's closed set of error kinds (§3 of the spec). -/
inductive ErrorKind where
  | diskExhausted
  | containerNameConflict (names : List String)
  | networkUnreachableV6
  | unknown
  deriving DecidableEq, Repr

/-- The classifier: the predicate checks of `run_docker_compose_with_retry`
(`start_services.py`) in their source order — disk exhaustion, name conflict,
IPv6, otherwise unknown. -/
def classify (output : String) : ErrorKind :=
  if is_disk_space_error output then .diskExhausted
  else
    let c := is_container_name_conflict output
    if c.1 then .containerNameConflict c.2
    else if is_ipv6_network_error output then .networkUnreachableV6
    else .unknown

/-! ## The operation runner

`run_docker_compose_with_retry(cmd, max_retries=3)` loops
`for attempt in range(max_retries)`: run the command; on exit status 0
print and return `True`; otherwise classify the combined
`stderr + stdout`.  Disk exhaustion raises `DiskSpaceError` at once; a
container-name conflict or an IPv6 network error is remediated and retried
while `attempt < max_retries - 1` and the remediation reports success, and
raises `CalledProcessError` otherwise; anything else raises
`CalledProcessError`.  The `return False` after the loop is the fall-through
of a completed loop.

The external world is an oracle: `results i` is what the `i`-th execution
of the command would produce, and `fixConflict i` / `fixIpv6 i` whether the
remediation run after a failed attempt `i` would report success. -/

/-- One `subprocess.run(..., capture_output=True)` result. -/
structure ProcResult where
  returncode : Int
  stdout : String
  stderr : String

/-- The oracle for one operation: per-attempt command results and
remediation outcomes. -/
structure RetryEnv where
  results : Nat → ProcResult
  fixConflict : Nat → Bool
  fixIpv6 : Nat → Bool

/-- The combined `error_output = (result.stderr or "") + (result.stdout or "")`
of attempt `i`. -/
def errOut (env : RetryEnv) (i : Nat) : String :=
  (env.results i).stderr ++ (env.results i).stdout

/-- How one call of `run_docker_compose_with_retry` ends: a normal return
value, or one of the two exceptions it can raise. -/
inductive RunOutcome where
  | ok (b : Bool)
  | errDisk
  | errCalled (returncode : Int)
  deriving DecidableEq, Repr

/-- The retry loop from attempt index `attempt` with `rem` loop iterations
left (`attempt + rem = max_retries` at every call). Returns the outcome
together with the number of command executions performed. Exhausting the
loop is the Python fall-through `return False`. -/
def run_with_retry_aux (env : RetryEnv) (maxRetries : Nat) : Nat → Nat → RunOutcome × Nat
  | _, 0 => (.ok false, 0)
  | attempt, rem + 1 =>
    let result := env.results attempt
    if result.returncode = 0 then (.ok true, 1)
    else
      let errorOutput := (env.results attempt).stderr ++ (env.results attempt).stdout
      if is_disk_space_error errorOutput then (.errDisk, 1)
      else if (is_container_name_conflict errorOutput).1 then
        if attempt < maxRetries - 1 then
          if env.fixConflict attempt then
            let p := run_with_retry_aux env maxRetries (attempt + 1) rem
            (p.1, p.2 + 1)
          else (.errCalled result.returncode, 1)
        else (.errCalled result.returncode, 1)
      else if is_ipv6_network_error errorOutput then
        if attempt < maxRetries - 1 then
          if env.fixIpv6 attempt then
            let p := run_with_retry_aux env maxRetries (attempt + 1) rem
            (p.1, p.2 + 1)
          else (.errCalled result.returncode, 1)
        else (.errCalled result.returncode, 1)
      else (.errCalled result.returncode, 1)

/-- `run_docker_compose_with_retry` of `start_services.py`: the loop over
`range(max_retries)` starting at attempt 0. -/
def run_docker_compose_with_retry (env : RetryEnv) (maxRetries : Nat) : RunOutcome × Nat :=
  run_with_retry_aux env maxRetries 0 maxRetries

/-! ## Resource limits — `start_services.update_env_with_resources`

For `cpu_count = c`, `mem_gb = m` (both Python ints) the orchestrator
computes, with Python `int` truncation of the float products (the exact
rational floors below; see the file header note on float rounding):

  ollama:   cpu `max(1, min(int(c*0.5),  c-1))`, mem `max(2, int(m*0.30))` GiB
  postgres: cpu `max(1, min(int(c*0.25), c-1))`, mem `max(1, int(m*0.18))` GiB
  n8n:      cpu `max(0.5, min(int(c*0.2), c-1))`, mem `max(1, int(m*0.12))` GiB
  runners:  cpu `max(0.5, min(int(c*0.15), c-1))`, mem `max(512, int(m*0.09*1024))` MiB
  qdrant:   cpu `max(0.25, min(int(c*0.1), c-1))`, mem `max(256, int(m*0.06*1024))` MiB
-/

def ss_ollama_cpu (c : Nat) : Nat := max 1 (min (c / 2) (c - 1))

def ss_ollama_mem (m : Nat) : Nat := max 2 (3 * m / 10)

def ss_postgres_cpu (c : Nat) : Nat := max 1 (min (c / 4) (c - 1))

def ss_postgres_mem (m : Nat) : Nat := max 1 (18 * m / 100)

/-- The integer clamp `min(int(c*0.2), c-1)` before `max(0.5, ·)`. -/
def ss_n8n_cpu_int (c : Nat) : Nat := min (c / 5) (c - 1)

/-- `max(0.5, ·)` may produce the float `0.5`, so the value lives in `ℚ`. -/
def ss_n8n_cpu (c : Nat) : ℚ := max (1 / 2 : ℚ) (ss_n8n_cpu_int c)

def ss_n8n_mem (m : Nat) : Nat := max 1 (12 * m / 100)

def ss_runners_cpu_int (c : Nat) : Nat := min (3 * c / 20) (c - 1)

def ss_runners_cpu (c : Nat) : ℚ := max (1 / 2 : ℚ) (ss_runners_cpu_int c)

def ss_runners_mem_mb (m : Nat) : Nat := max 512 (9 * 1024 * m / 100)

def ss_qdrant_cpu_int (c : Nat) : Nat := min (c / 10) (c - 1)

def ss_qdrant_cpu (c : Nat) : ℚ := max (1 / 4 : ℚ) (ss_qdrant_cpu_int c)

def ss_qdrant_mem_mb (m : Nat) : Nat := max 256 (6 * 1024 * m / 100)

/-- Total memory allocated by `start_services.update_env_with_resources`
across the five components, in MiB (the GiB limits scaled by 1024). -/
def ss_total_mem_mb (m : Nat) : Nat :=
  1024 * (ss_ollama_mem m + ss_postgres_mem m + ss_n8n_mem m)
    + ss_runners_mem_mb m + ss_qdrant_mem_mb m

/-! ## Resource limits — `O6HOBA.calculate_resource_limits` (CPU part)

The updater's calculator uses the same clamp shape with different floors
and weights; only its CPU limits are needed here:

  ollama:   `max(2,   min(int(c*0.5),  c-1))`
  n8n:      `max(1,   min(int(c*0.3),  c-1))`
  postgres: `max(1,   min(int(c*0.25), c-1))`
  runners:  `max(0.5, min(int(c*0.15), c-1))`
  qdrant:   `max(0.5, min(int(c*0.1),  c-1))`
-/

def o6_ollama_cpu (c : Nat) : Nat := max 2 (min (c / 2) (c - 1))

def o6_n8n_cpu (c : Nat) : Nat := max 1 (min (3 * c / 10) (c - 1))

def o6_postgres_cpu (c : Nat) : Nat := max 1 (min (c / 4) (c - 1))

def o6_runners_cpu (c : Nat) : ℚ := max (1 / 2 : ℚ) (min (3 * c / 20) (c - 1) : Nat)

def o6_qdrant_cpu (c : Nat) : ℚ := max (1 / 2 : ℚ) (min (c / 10) (c - 1) : Nat)

/-! ## Health gate — `wait_for_postgres_healthy`

The loop polls `docker inspect --format {{.State.Health.Status}}` on the
postgres container every `check_interval = 5` seconds while
`time.time() - start_time < timeout` (default 120), returning `True` on the
first "healthy" observation and `False` on timeout.  Treating each poll as
instantaneous, the `i`-th poll happens at elapsed time `5*i`, so exactly
`⌈timeout/5⌉` polls are made.  The container's health status over time is
an oracle `Nat → String` indexed by poll number. -/

def wait_pg_aux (pg : Nat → String) : Nat → Nat → Bool
  | _, 0 => false
  | i, r + 1 => if pg i = "healthy" then true else wait_pg_aux pg (i + 1) r

/-- `wait_for_postgres_healthy(timeout)` of `start_services.py`. -/
def wait_for_postgres_healthy (pg : Nat → String) (timeout : Nat) : Bool :=
  wait_pg_aux pg 0 ((timeout + 4) / 5)

/-- Modelled from the spec (§4.6 HealthGate), for comparison with the code:
a gate over a readiness signal polls every `interval` seconds until the
signal is ready or `timeout` elapses, i.e. it reports `Ready` exactly when
the signal is ready at one of the `⌈timeout/interval⌉` polls. The code's
`main` has no such gate for the dependency tier. -/
def specHealthGateReady (ready : Nat → Bool) (timeout interval : Nat) : Bool :=
  let rec go : Nat → Nat → Bool
    | _, 0 => false
    | i, r + 1 => ready i || go (i + 1) r
  go 0 ((timeout + interval - 1) / interval)

/-! ## The orchestration run — `main` of `start_services.py`

`main` sequences: validate the env file (exit 1 on failure); recompute
resources; prepare directories/repos; stop old containers;
`start_supabase` (a `run_docker_compose_with_retry` call);
`print_wait_countdown("Инициализация Supabase", 30)` — a fixed 30-second
countdown that reads no readiness signal whatsoever; `start_local_ai`
(pull and build steps whose failures are printed and ignored, then a
`run_docker_compose_with_retry` call); `wait_for_postgres_healthy()` (exit
1 on `False`).  `DiskSpaceError` is caught and turns into exit code 14;
`CalledProcessError` is not caught and escapes (a nonzero exit).

Steps with no control-flow connection to gating (directory preparation,
repo cloning, container cleanup — none of them consults any readiness
signal) are elided.  The dependency tier's actual readiness over time is
kept as the oracle `depReady` precisely to record that no step of `main`
reads it. -/

structure OrchEnv where
  envValid : Bool
  supabase : RetryEnv
  depReady : Nat → Bool
  localAi : RetryEnv
  pgHealth : Nat → String

/-- How a `main` invocation ends: normal completion, `sys.exit(code)`, or
an uncaught `CalledProcessError`. -/
inductive MainResult where
  | complete
  | exitCode (code : Nat)
  | uncaught (rc : Int)
  deriving DecidableEq, Repr

/-- `main` of `start_services.py` (gating-relevant control flow). -/
def mainRun (e : OrchEnv) : MainResult :=
  if e.envValid = false then .exitCode 1
  else
    match (run_docker_compose_with_retry e.supabase 3).1 with
    | .errDisk => .exitCode 14
    | .errCalled rc => .uncaught rc
    | .ok _ =>
      -- print_wait_countdown: 30 s of sleep, no readiness input, cannot fail
      match (run_docker_compose_with_retry e.localAi 3).1 with
      | .errDisk => .exitCode 14
      | .errCalled rc => .uncaught rc
      | .ok _ =>
        if wait_for_postgres_healthy e.pgHealth 120 then .complete
        else .exitCode 1

/-! ## Environment store — resource-limit section of `start_services.py`

`update_env_with_resources(cpu_count, mem_gb)` reads `.env`; if the string
`OLLAMA_CPU_LIMIT` occurs in the content it does *nothing*; otherwise it
appends the generated resource block and writes the file back.  Reading
`readlines`, extending, and `writelines` is, on the file content, exactly
string append.  The `datetime.now()` stamp is the parameter `now`.  Number
formatting follows Python: ints print bare, and the halved reserves are
floats printed with one decimal (`str(3/2) = "1.5"`). -/

/-- Python `str(n / 2)` for an int `n ≥ 1` (a float: "0.5", "1.0", "1.5", …). -/
def natHalfStr (n : Nat) : String :=
  toString (n / 2) ++ (if n % 2 = 0 then ".0" else ".5")

/-- Python `str(max(low, k))` where `k` is the int clamp and `low` the float
floor ("0.5" or "0.25"): the float floor wins only when `k = 0`. -/
def cpuLimitStr (k : Nat) (lowStr : String) : String :=
  if k = 0 then lowStr else toString k

/-- Python `str(max(0.25, n8n_cpu / 2))`: `n8n_cpu` is the float 0.5 when
its clamp is 0 (giving 0.25), otherwise an int halved to a float. -/
def cpuReserveStr (k : Nat) (lowStr : String) : String :=
  if k = 0 then lowStr else natHalfStr k

/-- The two comment lines heading the generated block. -/
def rvHeader (m : Nat) (now : String) : String :=
  "\n# Resource Limits (автоматически настроено " ++ now ++ ")\n"
    ++ "# Оптимизировано для " ++ toString m ++ "GB RAM\n"

/-- The generated block from its first key name onward (the `=` opens the
`OLLAMA_CPU_LIMIT=` line whose key is split off in `resourceVars`). -/
def rvRest (c m : Nat) : String :=
  "=" ++ toString (ss_ollama_cpu c) ++ "\n"
    ++ "OLLAMA_MEM_LIMIT=" ++ toString (ss_ollama_mem m) ++ "G\n"
    ++ "OLLAMA_CPU_RESERVE=" ++ natHalfStr (ss_ollama_cpu c) ++ "\n"
    ++ "OLLAMA_MEM_RESERVE=" ++ toString (ss_ollama_mem m / 2) ++ "G\n"
    ++ "POSTGRES_CPU_LIMIT=" ++ toString (ss_postgres_cpu c) ++ "\n"
    ++ "POSTGRES_MEM_LIMIT=" ++ toString (ss_postgres_mem m) ++ "G\n"
    ++ "POSTGRES_CPU_RESERVE=" ++ natHalfStr (ss_postgres_cpu c) ++ "\n"
    ++ "POSTGRES_MEM_RESERVE=" ++ toString (ss_postgres_mem m / 2) ++ "G\n"
    ++ "N8N_CPU_LIMIT=" ++ cpuLimitStr (ss_n8n_cpu_int c) "0.5" ++ "\n"
    ++ "N8N_MEM_LIMIT=" ++ toString (ss_n8n_mem m) ++ "G\n"
    ++ "N8N_CPU_RESERVE=" ++ cpuReserveStr (ss_n8n_cpu_int c) "0.25" ++ "\n"
    ++ "N8N_MEM_RESERVE=" ++ toString (max 512 (ss_n8n_mem m * 512)) ++ "M\n"
    ++ "# N8N Task Runners (External Mode)\n"
    ++ "N8N_RUNNERS_CPU_LIMIT=" ++ cpuLimitStr (ss_runners_cpu_int c) "0.5" ++ "\n"
    ++ "N8N_RUNNERS_MEM_LIMIT=" ++ toString (ss_runners_mem_mb m) ++ "M\n"
    ++ "N8N_RUNNERS_CPU_RESERVE=0.25\n"
    ++ "N8N_RUNNERS_MEM_RESERVE=" ++ toString (ss_runners_mem_mb m / 2) ++ "M\n"
    ++ "QDRANT_CPU_LIMIT=" ++ cpuLimitStr (ss_qdrant_cpu_int c) "0.25" ++ "\n"
    ++ "QDRANT_MEM_LIMIT=" ++ toString (ss_qdrant_mem_mb m) ++ "M\n"
    ++ "QDRANT_CPU_RESERVE=0.25\n"
    ++ "QDRANT_MEM_RESERVE=" ++ toString (ss_qdrant_mem_mb m / 2) ++ "M\n"

/-- The full generated `resource_vars` block, factored around its first key
occurrence so that the presence of `OLLAMA_CPU_LIMIT` in it is manifest. -/
def resourceVars (c m : Nat) (now : String) : String :=
  rvHeader m now ++ "OLLAMA_CPU_LIMIT" ++ rvRest c m

/-- `update_env_with_resources` of `start_services.py` on the `.env`
content: append the generated block only when `OLLAMA_CPU_LIMIT` is absent,
otherwise leave the content untouched. -/
def update_env_with_resources (c m : Nat) (now : String) (content : String) : String :=
  if strHas content "OLLAMA_CPU_LIMIT" then content
  else content ++ resourceVars c m now

/-! ## Environment store — additive migration of the runners auth token

`ensure_runners_auth_token` of `start_services.py` reads `.env`; if the
string `N8N_RUNNERS_AUTH_TOKEN=` occurs it returns at once.  Otherwise it
generates a fresh token (the parameter `token`, since `secrets.token_hex`
is a random source), splits the content on newlines, re-emits every line,
and right after the first line starting with
`N8N_USER_MANAGEMENT_JWT_SECRET=` inserts a blank line, a comment, and the
`N8N_RUNNERS_AUTH_TOKEN=<token>` line; if no such anchor line exists the
token line is inserted at position 0.  The store is the split line list;
`joinLines` is Python's `'\n'.join`. -/

def runnersAuthKey : String := "N8N_RUNNERS_AUTH_TOKEN="

def jwtAnchorKey : String := "N8N_USER_MANAGEMENT_JWT_SECRET="

def runnersComment : String := "# Task Runners (External Mode) - обязательно для n8n 2.0+"

/-- Python `'\n'.join`. -/
def joinLines : List String → String
  | [] => ""
  | [l] => l
  | l :: l₂ :: ls => l ++ "\n" ++ joinLines (l₂ :: ls)

/-- The re-emitting loop: insert the blank/comment/token lines after the
first anchor line; the boolean is Python's `token_added`. -/
def addTokenAfterJwt (tokenLine : String) : List String → List String × Bool
  | [] => ([], false)
  | l :: ls =>
    if l.startsWith jwtAnchorKey then
      (l :: "" :: runnersComment :: tokenLine :: ls, true)
    else
      let p := addTokenAfterJwt tokenLine ls
      (l :: p.1, p.2)

/-- `ensure_runners_auth_token` of `start_services.py` on the line list. -/
def ensure_runners_auth_token (token : String) (lines : List String) : List String :=
  if strHas (joinLines lines) runnersAuthKey then lines
  else
    let tokenLine := runnersAuthKey ++ token
    let p := addTokenAfterJwt tokenLine lines
    if p.2 then p.1 else tokenLine :: p.1

/-! ## Helper lemmas about the retry loop and the classifier -/

/-- Each loop iteration executes the command once, so a loop entered with
`rem` iterations left performs at most `rem` executions. -/
theorem run_aux_count_le (env : RetryEnv) (m : Nat) :
    ∀ r a, (run_with_retry_aux env m a r).2 ≤ r := by
  intro r
  induction r with
  | zero => intro a; simp [run_with_retry_aux]
  | succ r ih =>
    intro a
    simp only [run_with_retry_aux]
    split_ifs <;> simp <;> exact ih (a + 1)

/-- The loop never falls through: entered at attempt `a` with `a + r = m`
and at least one iteration left, it returns `True` or raises, never the
trailing `return False`. On the last iteration (`a = m - 1`) the guard
`attempt < max_retries - 1` is false, so every failure branch raises. -/
theorem run_aux_ne_ok_false (env : RetryEnv) (m : Nat) :
    ∀ r a, a + r = m → 1 ≤ r → (run_with_retry_aux env m a r).1 ≠ .ok false := by
  intro r
  induction r with
  | zero => omega
  | succ r ih =>
    intro a ha _
    simp only [run_with_retry_aux]
    split_ifs <;>
      first
        | (simp; done)
        | simpa using ih (a + 1) (by omega) (by omega)

/-- `classify` returns `diskExhausted` exactly when the disk predicate
holds (it is the first check). -/
theorem classify_disk_iff (o : String) :
    classify o = .diskExhausted ↔ is_disk_space_error o = true := by
  cases hd : is_disk_space_error o <;> cases hc : (is_container_name_conflict o).1 <;>
    cases hi : is_ipv6_network_error o <;> simp [classify, hd, hc, hi]

/-- Unpacking a `containerNameConflict` classification into the predicate
results of the runner's first two checks. -/
theorem classify_conflict_elim {o : String} {ns : List String}
    (h : classify o = .containerNameConflict ns) :
    is_disk_space_error o = false ∧ (is_container_name_conflict o).1 = true := by
  cases hd : is_disk_space_error o <;> cases hc : (is_container_name_conflict o).1 <;>
    cases hi : is_ipv6_network_error o <;> simp_all [classify]

/-- Unpacking a `networkUnreachableV6` classification. -/
theorem classify_ipv6_elim {o : String}
    (h : classify o = .networkUnreachableV6) :
    is_disk_space_error o = false ∧ (is_container_name_conflict o).1 = false ∧
      is_ipv6_network_error o = true := by
  cases hd : is_disk_space_error o <;> cases hc : (is_container_name_conflict o).1 <;>
    cases hi : is_ipv6_network_error o <;> simp_all [classify]

/-- Unpacking an `unknown` classification: no predicate fired. -/
theorem classify_unknown_elim {o : String}
    (h : classify o = .unknown) :
    is_disk_space_error o = false ∧ (is_container_name_conflict o).1 = false ∧
      is_ipv6_network_error o = false := by
  cases hd : is_disk_space_error o <;> cases hc : (is_container_name_conflict o).1 <;>
    cases hi : is_ipv6_network_error o <;> simp_all [classify]

/-- One non-final loop iteration on a remediable failure whose remediation
reports success: the loop re-enters with the next attempt, adding one
execution. -/
theorem run_aux_step_remediable (env : RetryEnv) (m a rem : Nat)
    (hrc : (env.results a).returncode ≠ 0)
    (hguard : a < m - 1)
    (hk : ((∃ ns, classify (errOut env a) = .containerNameConflict ns) ∧
            env.fixConflict a = true) ∨
          (classify (errOut env a) = .networkUnreachableV6 ∧ env.fixIpv6 a = true)) :
    run_with_retry_aux env m a (rem + 1) =
      ((run_with_retry_aux env m (a + 1) rem).1,
        (run_with_retry_aux env m (a + 1) rem).2 + 1) := by
  rcases hk with ⟨⟨ns, hcls⟩, hfix⟩ | ⟨hcls, hfix⟩
  · obtain ⟨hdisk, hconf⟩ := classify_conflict_elim hcls
    simp only [run_with_retry_aux, errOut] at *
    rw [if_neg hrc, if_neg (by simp [hdisk]), if_pos hconf, if_pos hguard, if_pos hfix]
  · obtain ⟨hdisk, hconf, hipv6⟩ := classify_ipv6_elim hcls
    simp only [run_with_retry_aux, errOut] at *
    rw [if_neg hrc, if_neg (by simp [hdisk]), if_neg (by simp [hconf]), if_pos hipv6,
      if_pos hguard, if_pos hfix]

/-- The final loop iteration on a remediable failure: the guard
`attempt < max_retries - 1` is false, so the loop raises
`CalledProcessError` without remediating. -/
theorem run_aux_step_remediable_last (env : RetryEnv) (m a rem : Nat)
    (hrc : (env.results a).returncode ≠ 0)
    (hguard : ¬ a < m - 1)
    (hk : (∃ ns, classify (errOut env a) = .containerNameConflict ns) ∨
          classify (errOut env a) = .networkUnreachableV6) :
    run_with_retry_aux env m a (rem + 1) =
      (.errCalled (env.results a).returncode, 1) := by
  rcases hk with ⟨ns, hcls⟩ | hcls
  · obtain ⟨hdisk, hconf⟩ := classify_conflict_elim hcls
    simp only [run_with_retry_aux, errOut] at *
    rw [if_neg hrc, if_neg (by simp [hdisk]), if_pos hconf, if_neg hguard]
  · obtain ⟨hdisk, hconf, hipv6⟩ := classify_ipv6_elim hcls
    simp only [run_with_retry_aux, errOut] at *
    rw [if_neg hrc, if_neg (by simp [hdisk]), if_neg (by simp [hconf]), if_pos hipv6,
      if_neg hguard]

/-! ## Claim theorems about the operation runner -/

/-- C1: with `max_attempts = 3`, the runner executes the command at most 3
times for every oracle; and when every attempt fails with a remediable kind
(name conflict or IPv6 error) whose remediation reports success while the
failure keeps recurring, it executes exactly 3 times and raises
`CalledProcessError` (never making a fourth attempt). -/
theorem retry_bound_three_attempts (env : RetryEnv) :
    (run_docker_compose_with_retry env 3).2 ≤ 3 ∧
    ((∀ i, i < 3 → (env.results i).returncode ≠ 0 ∧
        (((∃ ns, classify (errOut env i) = .containerNameConflict ns) ∧
            env.fixConflict i = true) ∨
          (classify (errOut env i) = .networkUnreachableV6 ∧ env.fixIpv6 i = true))) →
      run_docker_compose_with_retry env 3 = (.errCalled (env.results 2).returncode, 3)) := by
  constructor
  · exact run_aux_count_le env 3 3 0
  · intro h
    obtain ⟨hrc0, hk0⟩ := h 0 (by norm_num)
    obtain ⟨hrc1, hk1⟩ := h 1 (by norm_num)
    obtain ⟨hrc2, hk2⟩ := h 2 (by norm_num)
    have e0 : run_with_retry_aux env 3 0 3 =
        ((run_with_retry_aux env 3 1 2).1, (run_with_retry_aux env 3 1 2).2 + 1) :=
      run_aux_step_remediable env 3 0 2 hrc0 (by norm_num) hk0
    have e1 : run_with_retry_aux env 3 1 2 =
        ((run_with_retry_aux env 3 2 1).1, (run_with_retry_aux env 3 2 1).2 + 1) :=
      run_aux_step_remediable env 3 1 1 hrc1 (by norm_num) hk1
    have e2 : run_with_retry_aux env 3 2 1 = (.errCalled (env.results 2).returncode, 1) := by
      refine run_aux_step_remediable_last env 3 2 0 hrc2 (by norm_num) ?_
      rcases hk2 with ⟨he, _⟩ | ⟨he, _⟩
      · exact Or.inl he
      · exact Or.inr he
    show run_with_retry_aux env 3 0 3 = _
    rw [e0, e1, e2]

/-- The oracle for the C1 witness: every execution fails with exit status 1
and a container-name conflict on `/foo`, and every remediation reports
success (the conflict nevertheless recurs on the next attempt). -/
def envConflictLoop : RetryEnv where
  results := fun _ =>
    { returncode := 1, stdout := "",
      stderr := "The container name \"/foo\" is already in use" }
  fixConflict := fun _ => true
  fixIpv6 := fun _ => true

set_option maxRecDepth 20000 in
/-- Witness for C1: on the concrete always-recurring conflict oracle the
runner makes exactly 3 executions and raises `CalledProcessError`. -/
theorem retry_bound_three_attempts_witness :
    run_docker_compose_with_retry envConflictLoop 3 = (.errCalled 1, 3) :=
  (retry_bound_three_attempts envConflictLoop).2 (by
    intro i _
    refine ⟨?_, Or.inl ⟨⟨["foo"], ?_⟩, rfl⟩⟩
    · simp only [envConflictLoop]
      decide
    · simp only [errOut, envConflictLoop]
      decide)

/-- C2: an output containing the disk-exhaustion phrase together with a
name-conflict and/or IPv6 signature classifies as `DiskExhausted` (the disk
check comes first), and the runner raises `DiskSpaceError` on the first
attempt that produces it — the lower-priority kinds are never acted on. -/
theorem disk_priority_over_remediable (output : String)
    (hd : is_disk_space_error output = true)
    (_hother : (is_container_name_conflict output).1 = true ∨
      is_ipv6_network_error output = true) :
    classify output = .diskExhausted ∧
    ∀ (env : RetryEnv) (m : Nat), 1 ≤ m → (env.results 0).returncode ≠ 0 →
      errOut env 0 = output →
      run_docker_compose_with_retry env m = (.errDisk, 1) := by
  refine ⟨(classify_disk_iff output).mpr hd, ?_⟩
  intro env m hm hrc hout
  simp only [errOut] at hout
  obtain ⟨r, rfl⟩ : ∃ r, m = r + 1 := ⟨m - 1, by omega⟩
  show run_with_retry_aux env (r + 1) 0 (r + 1) = _
  simp only [run_with_retry_aux]
  rw [if_neg hrc, if_pos (by rw [hout]; exact hd)]

/-- The oracle for the C2 witness: the first execution fails with an output
carrying both the name-conflict signature and the disk phrase. -/
def envDiskAndConflict : RetryEnv where
  results := fun _ =>
    { returncode := 1,
      stdout := "The container name \"/db\" is already in use: no space left on device",
      stderr := "" }
  fixConflict := fun _ => true
  fixIpv6 := fun _ => true

set_option maxRecDepth 40000 in
/-- Witness for C2: a concrete output carrying both signatures classifies
as `DiskExhausted` and makes the runner raise `DiskSpaceError` at once. -/
theorem disk_priority_over_remediable_witness :
    classify (errOut envDiskAndConflict 0) = .diskExhausted ∧
    run_docker_compose_with_retry envDiskAndConflict 3 = (.errDisk, 1) := by
  have h := disk_priority_over_remediable (errOut envDiskAndConflict 0)
    (by decide) (Or.inl (by decide))
  exact ⟨h.1, h.2 envDiskAndConflict 3 (by norm_num) (by decide) rfl⟩

/-- C3: whatever `max_attempts ≥ 1` is, a first attempt that fails and
classifies as `DiskExhausted` or `Unknown` ends the run after exactly one
execution — no remediation, no retry — raising `DiskSpaceError`
respectively `CalledProcessError`. -/
theorem terminal_kind_single_attempt (env : RetryEnv) (m : Nat) (hm : 1 ≤ m)
    (hrc : (env.results 0).returncode ≠ 0) :
    (classify (errOut env 0) = .diskExhausted →
      run_docker_compose_with_retry env m = (.errDisk, 1)) ∧
    (classify (errOut env 0) = .unknown →
      run_docker_compose_with_retry env m = (.errCalled (env.results 0).returncode, 1)) := by
  obtain ⟨r, rfl⟩ : ∃ r, m = r + 1 := ⟨m - 1, by omega⟩
  constructor
  · intro hcls
    have hd := (classify_disk_iff _).mp hcls
    simp only [errOut] at hd
    show run_with_retry_aux env (r + 1) 0 (r + 1) = _
    simp only [run_with_retry_aux]
    rw [if_neg hrc, if_pos hd]
  · intro hcls
    obtain ⟨hd, hc, hi⟩ := classify_unknown_elim hcls
    simp only [errOut] at hd hc hi
    show run_with_retry_aux env (r + 1) 0 (r + 1) = _
    simp only [run_with_retry_aux]
    rw [if_neg hrc, if_neg (by simp [hd]), if_neg (by simp [hc]), if_neg (by simp [hi])]

/-- The oracle for the C3 witness, disk case: first attempt fails with the
disk-exhaustion phrase, with plenty of attempts remaining. -/
def envDiskFirst : RetryEnv where
  results := fun _ =>
    { returncode := 1, stdout := "", stderr := "write /var: no space left on device" }
  fixConflict := fun _ => true
  fixIpv6 := fun _ => true

/-- The oracle for the C3 witness, unknown case: first attempt fails with
an output matching no known signature. -/
def envUnknownFirst : RetryEnv where
  results := fun _ =>
    { returncode := 17, stdout := "", stderr := "some other failure" }
  fixConflict := fun _ => true
  fixIpv6 := fun _ => true

set_option maxRecDepth 20000 in
/-- Witness for C3: at `max_attempts = 5`, a first-attempt disk failure
gives `DiskSpaceError` after one execution, and a first-attempt unknown
failure gives `CalledProcessError` after one execution. -/
theorem terminal_kind_single_attempt_witness :
    run_docker_compose_with_retry envDiskFirst 5 = (.errDisk, 1) ∧
    run_docker_compose_with_retry envUnknownFirst 5 = (.errCalled 17, 1) :=
  ⟨(terminal_kind_single_attempt envDiskFirst 5 (by norm_num) (by decide)).1 (by decide),
   (terminal_kind_single_attempt envUnknownFirst 5 (by norm_num) (by decide)).2 (by decide)⟩

/-- C10: for `max_retries ≥ 1` the runner never reaches the trailing
`return False`: every invocation returns `True` or raises, so no failure is
ever reported as a quiet falsy result. -/
theorem no_silent_false_return (env : RetryEnv) (m : Nat) (hm : 1 ≤ m) :
    (run_docker_compose_with_retry env m).1 ≠ .ok false :=
  run_aux_ne_ok_false env m m 0 (by omega) hm

/-- The all-success oracle (exit status 0 on every execution). -/
def envAllOk : RetryEnv where
  results := fun _ => { returncode := 0, stdout := "", stderr := "" }
  fixConflict := fun _ => false
  fixIpv6 := fun _ => false

/-- Witness for C10 at `max_retries = 1` on the all-success oracle. -/
theorem no_silent_false_return_witness :
    (run_docker_compose_with_retry envAllOk 1).1 ≠ .ok false :=
  no_silent_false_return envAllOk 1 (by norm_num)

/-! ## Claim theorems about the orchestration run -/

/-- Characterization of a completed run: `main` reaches its success exit
exactly when the env file validates, both compose bring-ups return `True`,
and the PostgreSQL health gate reports healthy within its 120-second
window. No readiness signal of the dependency tier occurs in the
right-hand side: `main` never reads one. -/
theorem mainRun_complete_iff (e : OrchEnv) :
    mainRun e = .complete ↔
      e.envValid = true ∧
      (run_docker_compose_with_retry e.supabase 3).1 = .ok true ∧
      (run_docker_compose_with_retry e.localAi 3).1 = .ok true ∧
      wait_for_postgres_healthy e.pgHealth 120 = true := by
  cases hv : e.envValid
  · simp [mainRun, hv]
  · cases hsub : (run_docker_compose_with_retry e.supabase 3).1 with
    | ok b =>
      have hb : b = true := by
        cases b
        · exact absurd hsub (run_aux_ne_ok_false e.supabase 3 3 0 (by omega) (by omega))
        · rfl
      subst hb
      cases hloc : (run_docker_compose_with_retry e.localAi 3).1 with
      | ok b₂ =>
        have hb₂ : b₂ = true := by
          cases b₂
          · exact absurd hloc (run_aux_ne_ok_false e.localAi 3 3 0 (by omega) (by omega))
          · rfl
        subst hb₂
        cases hw : wait_for_postgres_healthy e.pgHealth 120 <;>
          simp [mainRun, hv, hsub, hloc, hw]
      | errDisk => simp [mainRun, hv, hsub, hloc]
      | errCalled rc => simp [mainRun, hv, hsub, hloc]
    | errDisk => simp [mainRun, hv, hsub]
    | errCalled rc => simp [mainRun, hv, hsub]

/-- C4 (amended): the run completes only if the *workload-tier* health gate
(`wait_for_postgres_healthy`) reports `Ready`; a timed-out workload gate
forces a non-`Complete` end (exit 1). The wait after the dependency tier is
a fixed 30-second countdown, not a readiness-polled gate, so no
dependency-readiness condition appears. -/
theorem completion_gated_by_workload_health (e : OrchEnv) :
    (mainRun e = .complete ↔
      e.envValid = true ∧
      (run_docker_compose_with_retry e.supabase 3).1 = .ok true ∧
      (run_docker_compose_with_retry e.localAi 3).1 = .ok true ∧
      wait_for_postgres_healthy e.pgHealth 120 = true) ∧
    (wait_for_postgres_healthy e.pgHealth 120 = false → mainRun e ≠ .complete) := by
  refine ⟨mainRun_complete_iff e, fun hw hc => ?_⟩
  have := ((mainRun_complete_iff e).mp hc).2.2.2
  rw [hw] at this
  exact Bool.false_ne_true this

/-- A world where everything succeeds but the dependency tier is never
actually ready: its readiness signal is constantly false. -/
def depNeverReadyEnv : OrchEnv where
  envValid := true
  supabase := envAllOk
  depReady := fun _ => false
  localAi := envAllOk
  pgHealth := fun _ => "healthy"

/-- C4 counterexample: the run reaches `Complete` although a spec-style
dependency-tier health gate over the actual dependency readiness signal
would time out (the signal is never ready) — `main` only sleeps 30 seconds
between the tiers and polls nothing. -/
theorem dependency_gate_not_polled :
    mainRun depNeverReadyEnv = .complete ∧
    specHealthGateReady depNeverReadyEnv.depReady 120 5 = false := by
  constructor
  · decide
  · decide

/-- A world where PostgreSQL never reports healthy. -/
def pgNeverHealthyEnv : OrchEnv where
  envValid := true
  supabase := envAllOk
  depReady := fun _ => true
  localAi := envAllOk
  pgHealth := fun _ => "starting"

/-- Witness for the amended C4: with a never-healthy workload probe the
run does not complete. -/
theorem completion_gated_by_workload_health_witness :
    mainRun pgNeverHealthyEnv ≠ .complete :=
  (completion_gated_by_workload_health pgNeverHealthyEnv).2 (by decide)

/-! ## Helper lemmas about substring occurrence -/

/-- A substring of the right part occurs in an append. -/
theorem strHas_append_of_right {b pat : String} (a : String) (h : strHas b pat = true) :
    strHas (a ++ b) pat = true := by
  simp only [strHas, listHas, decide_eq_true_eq] at *
  rw [String.data_append]
  exact h.trans (List.suffix_append a.data b.data).isInfix

/-- The middle part of a three-way append occurs in it. -/
theorem strHas_sandwich (a p b : String) : strHas (a ++ p ++ b) p = true := by
  simp only [strHas, listHas, decide_eq_true_eq]
  refine ⟨a.data, b.data, ?_⟩
  simp [String.data_append, List.append_assoc]

/-- The left part of an append occurs in it. -/
theorem strHas_append_left (p b : String) : strHas (p ++ b) p = true := by
  simp only [strHas, listHas, decide_eq_true_eq]
  rw [String.data_append]
  exact ⟨[], b.data, by simp⟩

/-- A pattern occurring in some line occurs in the newline-join of the
lines (the pattern sits inside that line's copy in the join). -/
theorem strHas_joinLines {l : String} {ls : List String} {pat : String}
    (hl : l ∈ ls) (h : strHas l pat = true) :
    strHas (joinLines ls) pat = true := by
  induction ls with
  | nil => cases hl
  | cons a as ih =>
    cases as with
    | nil =>
      rcases List.mem_singleton.mp hl with rfl
      exact h
    | cons b bs =>
      rcases List.mem_cons.mp hl with rfl | hl'
      · simp only [strHas, listHas, decide_eq_true_eq] at *
        simp only [joinLines, String.data_append]
        exact h.trans ⟨[], ['\n'] ++ (joinLines (b :: bs)).data, by simp⟩
      · have := ih hl'
        simp only [strHas, listHas, decide_eq_true_eq] at *
        simp only [joinLines, String.data_append]
        exact this.trans (List.suffix_append (a.data ++ ['\n']) _).isInfix

/-! ## Claim theorems about the resource-limit section (C5) -/

/-- C5 (amended): `start_services.update_env_with_resources` appends the
generated resource block only when `OLLAMA_CPU_LIMIT` is absent; when the
key is present the store is returned untouched — the block is *not*
recomputed or replaced, so values persisted by an earlier run survive.
Re-running on the result is a no-op, hence at most one block ever exists. -/
theorem resource_section_append_only (c m : Nat) (now now₂ : String) (content : String) :
    (strHas content "OLLAMA_CPU_LIMIT" = true →
      update_env_with_resources c m now content = content) ∧
    (strHas content "OLLAMA_CPU_LIMIT" = false →
      update_env_with_resources c m now content = content ++ resourceVars c m now) ∧
    update_env_with_resources c m now₂ (update_env_with_resources c m now content) =
      update_env_with_resources c m now content := by
  refine ⟨fun h => by simp [update_env_with_resources, h],
    fun h => by simp [update_env_with_resources, h], ?_⟩
  by_cases h : strHas content "OLLAMA_CPU_LIMIT" = true
  · simp [update_env_with_resources, h]
  · have h' : strHas content "OLLAMA_CPU_LIMIT" = false := by
      simpa using h
    have hk : strHas (content ++ resourceVars c m now) "OLLAMA_CPU_LIMIT" = true := by
      apply strHas_append_of_right
      show strHas (rvHeader m now ++ "OLLAMA_CPU_LIMIT" ++ rvRest c m) _ = true
      exact strHas_sandwich (rvHeader m now) "OLLAMA_CPU_LIMIT" (rvRest c m)
    simp [update_env_with_resources, h', hk]

/-- A store written by an earlier run on a smaller host: it already carries
a resource block with `OLLAMA_MEM_LIMIT=2G`. -/
def staleEnvContent : String :=
  "POSTGRES_PASSWORD=x\nOLLAMA_CPU_LIMIT=1\nOLLAMA_MEM_LIMIT=2G\n"

set_option maxRecDepth 40000 in
/-- C5 counterexample: an orchestration run on a host with 16 GiB over the
stale store changes nothing — the current capacity would dictate
`OLLAMA_MEM_LIMIT=4G` (the recomputed `ss_ollama_mem 16 = 4`), but the
store still carries only the earlier run's `2G` value, so the limits are
*not* recomputed-and-replaced on every run. -/
theorem resource_section_keeps_stale_values :
    update_env_with_resources 8 16 "2026-01-01 00:00" staleEnvContent = staleEnvContent ∧
    ss_ollama_mem 16 = 4 ∧
    strHas staleEnvContent "OLLAMA_MEM_LIMIT=4G" = false := by
  refine ⟨?_, by decide, by decide⟩
  have h : strHas staleEnvContent "OLLAMA_CPU_LIMIT" = true := by decide
  simp [update_env_with_resources, h]

/-! ## Claim theorems about resource estimation (C6, C7) -/

/-- C6 counterexample: at `HostCapacity{cpu_count = 2, memory_gib = 2}` the
hard per-component floors (2 GiB + 1 GiB + 1 GiB + 512 MiB + 256 MiB =
4.75 GiB) exceed `0.85 * 2 = 1.7` GiB, so the claimed bound fails for
`m = 2` even though the claim asserts it for every `m ≥ 2`. -/
theorem memory_bound_fails_at_two_gib :
    ¬ ((ss_total_mem_mb 2 : ℚ) / 1024 ≤ 0.85 * 2) := by
  have h : ss_total_mem_mb 2 = 4864 := by decide
  rw [h]
  norm_num

/-- C6 (amended): for hosts with `memory_gib ≥ 6` (instead of `≥ 2`) the
five memory limits of `start_services.update_env_with_resources` sum to at
most `0.85 * memory_gib`: the weights total 0.75 and by 6 GiB the floors
are dominated enough to keep the total under the bound. For
`m ∈ {2, 3, 4, 5}` the floors exceed it. -/
theorem memory_bound_holds_from_six_gib (c m : Nat) (_hc : 2 ≤ c) (hm : 6 ≤ m) :
    (ss_total_mem_mb m : ℚ) / 1024 ≤ 0.85 * m := by
  have key : 20 * ss_total_mem_mb m ≤ 17408 * m := by
    unfold ss_total_mem_mb ss_ollama_mem ss_postgres_mem ss_n8n_mem ss_runners_mem_mb
      ss_qdrant_mem_mb
    omega
  have key' : (20 : ℚ) * (ss_total_mem_mb m : ℚ) ≤ 17408 * (m : ℚ) := by
    exact_mod_cast key
  rw [div_le_iff₀ (by norm_num : (0 : ℚ) < 1024)]
  linarith

/-- Witness for the amended C6 at a concrete 2-CPU, 8-GiB host. -/
theorem memory_bound_holds_from_six_gib_witness :
    (ss_total_mem_mb 8 : ℚ) / 1024 ≤ 0.85 * 8 :=
  memory_bound_holds_from_six_gib 2 8 (by norm_num) (by norm_num)

/-- C7 counterexample: `O6HOBA.calculate_resource_limits` computes the
Ollama CPU limit as `max(2, min(int(c*0.5), c-1))` — the floor of 2 is
applied *after* the `c-1` clamp, so at `cpu_count = 2` the limit is 2,
i.e. it equals `cpu_count` and is not within `[reserve_floor, c-1]`:
that component claims every core. -/
theorem o6_ollama_claims_all_cores :
    o6_ollama_cpu 2 = 2 ∧ ¬ (o6_ollama_cpu 2 ≤ 2 - 1) := by decide

/-- Bounding a clamp value `max low k` (rational floor `low ≤ 1`, integer
clamp `k ≤ bound`, `bound ≥ 1`) by the bound. -/
theorem q_clamp_le (low : ℚ) (k bound : Nat) (hk : k ≤ bound) (hlow : low ≤ 1)
    (hb : 1 ≤ bound) : max low (k : ℚ) ≤ (bound : ℚ) := by
  apply max_le
  · have h1 : (1 : ℚ) ≤ (bound : ℚ) := by exact_mod_cast hb
    linarith
  · exact_mod_cast hk

/-- C7 (amended): every CPU limit is `max(reserve_floor, min(⌊c·w⌋, c-1))`
— the floor applied after the clamp.  All five `start_services` limits stay
`≤ c - 1 < c` for every `c ≥ 2` (their floors are at most 1); the five
`O6HOBA` limits stay `≤ c - 1 < c` for every `c ≥ 3`, but not at `c = 2`,
where the Ollama floor of 2 reaches `c`. -/
theorem cpu_limits_stay_below_core_count (c : Nat) :
    (2 ≤ c →
      ss_ollama_cpu c ≤ c - 1 ∧ ss_postgres_cpu c ≤ c - 1 ∧
      ss_n8n_cpu c ≤ ((c - 1 : Nat) : ℚ) ∧ ss_runners_cpu c ≤ ((c - 1 : Nat) : ℚ) ∧
      ss_qdrant_cpu c ≤ ((c - 1 : Nat) : ℚ)) ∧
    (3 ≤ c →
      o6_ollama_cpu c ≤ c - 1 ∧ o6_n8n_cpu c ≤ c - 1 ∧ o6_postgres_cpu c ≤ c - 1 ∧
      o6_runners_cpu c ≤ ((c - 1 : Nat) : ℚ) ∧ o6_qdrant_cpu c ≤ ((c - 1 : Nat) : ℚ)) := by
  constructor
  · intro hc
    refine ⟨?_, ?_, ?_, ?_, ?_⟩
    · unfold ss_ollama_cpu; omega
    · unfold ss_postgres_cpu; omega
    · exact q_clamp_le _ _ _ (min_le_right _ _) (by norm_num) (by omega)
    · exact q_clamp_le _ _ _ (min_le_right _ _) (by norm_num) (by omega)
    · exact q_clamp_le _ _ _ (min_le_right _ _) (by norm_num) (by omega)
  · intro hc
    refine ⟨?_, ?_, ?_, ?_, ?_⟩
    · unfold o6_ollama_cpu; omega
    · unfold o6_n8n_cpu; omega
    · unfold o6_postgres_cpu; omega
    · exact q_clamp_le _ _ _ (min_le_right _ _) (by norm_num) (by omega)
    · exact q_clamp_le _ _ _ (min_le_right _ _) (by norm_num) (by omega)

/-- Witness for the amended C7 at `cpu_count = 4`. -/
theorem cpu_limits_stay_below_core_count_witness :
    ss_n8n_cpu 4 ≤ ((4 - 1 : Nat) : ℚ) ∧ o6_ollama_cpu 4 ≤ 4 - 1 :=
  ⟨((cpu_limits_stay_below_core_count 4).1 (by norm_num)).2.2.1,
   ((cpu_limits_stay_below_core_count 4).2 (by norm_num)).1⟩

/-! ## Claim theorems about the additive token migration (C8) -/

/-- When the anchor insertion fired, the token line is in the result. -/
theorem addTokenAfterJwt_mem (t : String) :
    ∀ ls : List String, (addTokenAfterJwt t ls).2 = true → t ∈ (addTokenAfterJwt t ls).1 := by
  intro ls
  induction ls with
  | nil => simp [addTokenAfterJwt]
  | cons l ls ih =>
    by_cases hl : l.startsWith jwtAnchorKey
    · simp [addTokenAfterJwt, hl]
    · intro h
      simp only [addTokenAfterJwt, hl, if_false, Bool.if_false_left] at h ⊢
      exact List.mem_cons_of_mem l (ih h)

/-- The re-emitting loop only inserts lines: the original lines survive in
order. -/
theorem addTokenAfterJwt_sublist (t : String) :
    ∀ ls : List String, List.Sublist ls (addTokenAfterJwt t ls).1 := by
  intro ls
  induction ls with
  | nil => simp [addTokenAfterJwt]
  | cons l ls ih =>
    by_cases hl : l.startsWith jwtAnchorKey
    · simp only [addTokenAfterJwt, hl, if_true]
      exact List.Sublist.cons₂ l (List.sublist_cons_of_sublist _
        (List.sublist_cons_of_sublist _ (List.sublist_cons_of_sublist _ (List.Sublist.refl ls))))
    · simp only [addTokenAfterJwt, hl, if_false]
      exact List.Sublist.cons₂ l ih

/-- A store whose join already contains the token key is returned
unchanged. -/
theorem ensure_noop_of_present (token : String) (ls : List String)
    (h : strHas (joinLines ls) runnersAuthKey = true) :
    ensure_runners_auth_token token ls = ls := by
  simp [ensure_runners_auth_token, h]

/-- C8: the token migration of `ensure_runners_auth_token` appends the
`N8N_RUNNERS_AUTH_TOKEN` entry only when the key is absent; it never drops
or edits an existing line (the input is a sublist of the output, and a
store already holding the key is returned identical); and a second
application to the result — with any other generated token — is a no-op. -/
theorem token_migration_additive_idempotent (token token₂ : String) (lines : List String) :
    (strHas (joinLines lines) runnersAuthKey = true →
      ensure_runners_auth_token token lines = lines) ∧
    List.Sublist lines (ensure_runners_auth_token token lines) ∧
    (strHas (joinLines lines) runnersAuthKey = false →
      (runnersAuthKey ++ token) ∈ ensure_runners_auth_token token lines) ∧
    ensure_runners_auth_token token₂ (ensure_runners_auth_token token lines) =
      ensure_runners_auth_token token lines := by
  have hmem : strHas (joinLines lines) runnersAuthKey = false →
      (runnersAuthKey ++ token) ∈ ensure_runners_auth_token token lines := by
    intro h
    simp only [ensure_runners_auth_token, h, Bool.false_eq_true, if_false]
    by_cases hb : (addTokenAfterJwt (runnersAuthKey ++ token) lines).2 = true
    · simp only [hb, if_true]
      exact addTokenAfterJwt_mem _ lines hb
    · simp only [hb, if_false]
      exact List.mem_cons_self _ _
  refine ⟨fun h => by simp [ensure_runners_auth_token, h], ?_, hmem, ?_⟩
  · by_cases h : strHas (joinLines lines) runnersAuthKey = true
    · simp [ensure_runners_auth_token, h]
    · simp only [ensure_runners_auth_token, h, if_false]
      by_cases hb : (addTokenAfterJwt (runnersAuthKey ++ token) lines).2 = true
      · simp only [hb, if_true]
        exact addTokenAfterJwt_sublist _ lines
      · simp only [hb, if_false]
        exact List.sublist_cons_of_sublist _ (addTokenAfterJwt_sublist _ lines)
  · by_cases h : strHas (joinLines lines) runnersAuthKey = true
    · simp [ensure_runners_auth_token, h]
    · have h' : strHas (joinLines lines) runnersAuthKey = false := by simpa using h
      have hk : strHas (joinLines (ensure_runners_auth_token token lines))
          runnersAuthKey = true :=
        strHas_joinLines (hmem h') (strHas_append_left runnersAuthKey token)
      exact ensure_noop_of_present token₂ _ hk

/-- A store holding the anchor key but no runners token. -/
def linesNoToken : List String :=
  ["POSTGRES_PASSWORD=x", "N8N_USER_MANAGEMENT_JWT_SECRET=s"]

set_option maxRecDepth 40000 in
/-- Witness for C8: migrating the concrete store adds the token entry; a
second migration with a different generated token changes nothing. -/
theorem token_migration_additive_idempotent_witness :
    (runnersAuthKey ++ "abc123") ∈ ensure_runners_auth_token "abc123" linesNoToken ∧
    ensure_runners_auth_token "zzz999" (ensure_runners_auth_token "abc123" linesNoToken) =
      ensure_runners_auth_token "abc123" linesNoToken :=
  ⟨(token_migration_additive_idempotent "abc123" "zzz999" linesNoToken).2.2.1 (by decide),
   (token_migration_additive_idempotent "abc123" "zzz999" linesNoToken).2.2.2⟩

/-! ## Claim theorem about conflict-name extraction (C9) -/

/-- C9: the conflict classifier's name list is the deduplicated set of all
names extracted by the signature matcher — no duplicates, the same
membership as the raw match list — and when no occurrence exists (the
match list is empty, as for the empty string) it reports
`(False, [])`. -/
theorem conflict_names_deduplicated (output : String) :
    (is_container_name_conflict output).2.Nodup ∧
    (∀ n, n ∈ (is_container_name_conflict output).2 ↔ n ∈ conflictNames output) ∧
    (conflictNames output = [] → is_container_name_conflict output = (false, [])) ∧
    ((is_container_name_conflict output).1 = true ↔ conflictNames output ≠ []) := by
  rcases h : conflictNames output with _ | ⟨a, as⟩ <;>
    simp [is_container_name_conflict, h, List.nodup_dedup, List.mem_dedup]

/-- An output mentioning conflicts on `/a`, `/b`, and `/a` again. -/
def outDupConflicts : String :=
  "The container name \"/a\" is already in use. "
    ++ "The container name \"/b\" is already in use. "
    ++ "The container name \"/a\" is already in use."

set_option maxRecDepth 100000 in
/-- Witness for C9: the empty output reports no conflict, and the concrete
duplicated output yields exactly the two names with no duplicate. -/
theorem conflict_names_deduplicated_witness :
    is_container_name_conflict "" = (false, []) ∧
    (is_container_name_conflict outDupConflicts).2.Nodup ∧
    ("a" ∈ (is_container_name_conflict outDupConflicts).2 ↔
      "a" ∈ conflictNames outDupConflicts) ∧
    conflictNames outDupConflicts = ["a", "b", "a"] :=
  ⟨(conflict_names_deduplicated "").2.2.1 (by decide),
   (conflict_names_deduplicated outDupConflicts).1,
   (conflict_names_deduplicated outDupConflicts).2.1 "a",
   by decide⟩

set_option maxRecDepth 40000 in
/-- Witness for the amended C5: on a store without the key the block is
appended, and a re-run on the result changes nothing. -/
theorem resource_section_append_only_witness :
    update_env_with_resources 2 4 "t" "A=1" = "A=1" ++ resourceVars 2 4 "t" ∧
    update_env_with_resources 2 4 "t" (update_env_with_resources 2 4 "t" "A=1") =
      update_env_with_resources 2 4 "t" "A=1" :=
  ⟨(resource_section_append_only 2 4 "t" "t" "A=1").2.1 (by decide),
   (resource_section_append_only 2 4 "t" "t" "A=1").2.2⟩
